/-
Verification of the Telegram-Auto-Regger specification against the source.

The development shallowly embeds the parts of the program the claims talk
about:

* the local activation ledger (`activations.json`) and its operations
  `save_activation_to_json`, `remove_activation_from_json`,
  `can_set_status_8` (src/auto_reger/sms_api.py);
* the `phone_number_send` attempt loop of src/telegram_regger.py, as a
  fuel-indexed interpreter over a stream of provider responses, producing a
  trace of observable effects (rental requests, activation_admin cancels,
  delivery of the number to the Telegram app);
* the timeout path of `SmsApi.check_verif_status` combined with the
  `register_telegram_account` handling of a missing code;
* the pure generators `generate_samsung_imei` and
  `generate_boottime_sequence` of src/auto_reger/adb.py.

Python `datetime` values are modelled as `Int` seconds; dictionary fields
that may be absent are modelled with `Option`; Python truthiness of a
string option (`if not phone_number`) is modelled by `pyFalsy`.
-/
import Mathlib

namespace AutoRegger

/-! ## Activation ledger (src/auto_reger/sms_api.py) -/

/-- One row of `activations.json`.  `created_at` is `none` when the field is
missing or falsy (Python `if not created_at`), `some none` when present but
not parseable by `datetime.fromisoformat`, and `some (some t)` when it
parses to the timestamp `t` (seconds). -/
structure ActivationRecord where
  activation_id : String
  phone_number : String
  created_at : Option (Option Int)
deriving DecidableEq, Repr

abbrev Ledger := List ActivationRecord

/-- Python `str(x)` applied to an optional string (`str(None) = "None"`). -/
def pyStr : Option String → String
  | none => "None"
  | some s => s

/-- `save_activation_to_json`: append a record stamped with the current
time (`datetime.utcnow().isoformat()`). -/
def save_activation_to_json (ledger : Ledger) (activation_id phone_number : String)
    (now : Int) : Ledger :=
  ledger ++ [⟨activation_id, phone_number, some (some now)⟩]

/-- `remove_activation_from_json`: keep the rows whose `activation_id`
differs from the given one. -/
def remove_activation_from_json (ledger : Ledger) (activation_id : String) : Ledger :=
  ledger.filter (fun row => row.activation_id != activation_id)

/-- `can_set_status_8`: walk the ledger; on the first row whose id matches,
return `true` when `created_at` is missing or unparseable (fail-open),
otherwise compare the age with `min_age_seconds`.  When no row matches,
return `false`. -/
def can_set_status_8 (ledger : Ledger) (now : Int) (activation_id : String)
    (min_age_seconds : Int) : Bool :=
  match ledger with
  | [] => false
  | row :: rest =>
    if row.activation_id ≠ activation_id then
      can_set_status_8 rest now activation_id min_age_seconds
    else
      match row.created_at with
      | none => true
      | some none => true
      | some (some t) => now - t ≥ min_age_seconds

/-! ## Basic ledger lemmas -/

theorem remove_mem (L : Ledger) (id : String) (r : ActivationRecord) :
    r ∈ remove_activation_from_json L id ↔ r ∈ L ∧ r.activation_id ≠ id := by
  simp [remove_activation_from_json, List.mem_filter, bne_iff_ne]

theorem remove_of_absent (L : Ledger) (id : String)
    (h : ∀ r ∈ L, r.activation_id ≠ id) :
    remove_activation_from_json L id = L := by
  induction L with
  | nil => rfl
  | cons a L ih =>
    have ha : a.activation_id ≠ id := h a (List.mem_cons_self a L)
    have ih' := ih (fun r hr => h r (List.mem_cons_of_mem a hr))
    simp only [remove_activation_from_json] at ih' ⊢
    simp [List.filter_cons, bne_iff_ne, ha, ih']

theorem remove_idem (L : Ledger) (id : String) :
    remove_activation_from_json (remove_activation_from_json L id) id =
      remove_activation_from_json L id := by
  apply remove_of_absent
  intro r hr
  exact ((remove_mem L id r).mp hr).2

/-- Evaluation of the cancellation rule on the first matching row (if any). -/
def cancelEval (now minAge : Int) : Option ActivationRecord → Bool
  | none => false
  | some r =>
    match r.created_at with
    | none => true
    | some none => true
    | some (some t) => now - t ≥ minAge

theorem can_set_status_8_cons (a : ActivationRecord) (L : Ledger)
    (now : Int) (id : String) (minAge : Int) :
    can_set_status_8 (a :: L) now id minAge =
      if a.activation_id ≠ id then can_set_status_8 L now id minAge
      else cancelEval now minAge (some a) := rfl

/-- `can_set_status_8` is decided by the first ledger row matching the id,
exactly as the Python loop returns from inside the `for`. -/
theorem can_set_status_8_find (L : Ledger) (now : Int) (id : String) (minAge : Int) :
    can_set_status_8 L now id minAge =
      cancelEval now minAge (L.find? (fun r => r.activation_id == id)) := by
  induction L with
  | nil => rfl
  | cons a L ih =>
    rw [can_set_status_8_cons, List.find?_cons]
    by_cases h : a.activation_id = id
    · rw [if_neg (fun hn => hn h)]
      have hb : (a.activation_id == id) = true := beq_iff_eq.mpr h
      rw [hb]
    · rw [if_pos h, ih]
      have hb : (a.activation_id == id) = false := by simpa using h
      rw [hb]

/-- C2: `can_set_status_8` with the default `min_age_seconds = 120` returns
`false` for an id never recorded in the ledger; `false` for a recorded id
whose age is below 120 seconds (in particular a fresh record of age 0);
`true` once the age of the (first) matching record reaches 120 seconds; and
`true` when that record's timestamp is missing or unparseable (fail-open). -/
theorem can_set_status_8_spec (L : Ledger) (now : Int) (id : String) :
    ((∀ r ∈ L, r.activation_id ≠ id) → can_set_status_8 L now id 120 = false) ∧
    (∀ r, L.find? (fun x => x.activation_id == id) = some r →
      (∀ t, r.created_at = some (some t) → now - t < 120 →
          can_set_status_8 L now id 120 = false) ∧
      (∀ t, r.created_at = some (some t) → now - t ≥ 120 →
          can_set_status_8 L now id 120 = true) ∧
      ((r.created_at = none ∨ r.created_at = some none) →
          can_set_status_8 L now id 120 = true)) := by
  constructor
  · intro h
    rw [can_set_status_8_find]
    have hf : L.find? (fun x => x.activation_id == id) = none := by
      rw [List.find?_eq_none]
      intro r hr
      simpa using h r hr
    rw [hf]
    rfl
  · intro r hfind
    refine ⟨?_, ?_, ?_⟩
    · intro t hc hlt
      rw [can_set_status_8_find, hfind]
      simp only [cancelEval]
      rw [hc]
      simpa using by omega
    · intro t hc hge
      rw [can_set_status_8_find, hfind]
      simp only [cancelEval]
      rw [hc]
      simpa using hge
    · intro hc
      rw [can_set_status_8_find, hfind]
      simp only [cancelEval]
      rcases hc with hc | hc <;> rw [hc]

/-- Witness for `can_set_status_8_spec`: an unknown id is rejected, a fresh
record (age 0) is rejected, the same record is accepted at age 120, and a
record with an unparseable timestamp is accepted. -/
theorem can_set_status_8_spec_witness :
    can_set_status_8 [] 0 "42" 120 = false ∧
    can_set_status_8 [⟨"42", "+15550001", some (some 0)⟩] 0 "42" 120 = false ∧
    can_set_status_8 [⟨"42", "+15550001", some (some 0)⟩] 120 "42" 120 = true ∧
    can_set_status_8 [⟨"42", "+15550001", some none⟩] 5 "42" 120 = true :=
  ⟨(can_set_status_8_spec [] 0 "42").1 (by simp),
   (((can_set_status_8_spec [⟨"42", "+15550001", some (some 0)⟩] 0 "42").2
      ⟨"42", "+15550001", some (some 0)⟩ (by decide)).1) 0 rfl (by decide),
   (((can_set_status_8_spec [⟨"42", "+15550001", some (some 0)⟩] 120 "42").2
      ⟨"42", "+15550001", some (some 0)⟩ (by decide)).2.1) 0 rfl (by decide),
   (((can_set_status_8_spec [⟨"42", "+15550001", some none⟩] 5 "42").2
      ⟨"42", "+15550001", some none⟩ (by decide)).2.2) (Or.inr rfl)⟩

/-- C3: ledger removal is idempotent: `remove_activation_from_json` keeps
exactly the rows not matching the id (filtering out all matching records),
it is total (no exception when the id is absent: removal of an absent id is
the identity), and applying it a second time changes nothing. -/
theorem remove_activation_idempotent (L : Ledger) (id : String) :
    (∀ r, r ∈ remove_activation_from_json L id ↔ r ∈ L ∧ r.activation_id ≠ id) ∧
    remove_activation_from_json (remove_activation_from_json L id) id =
      remove_activation_from_json L id ∧
    ((∀ r ∈ L, r.activation_id ≠ id) → remove_activation_from_json L id = L) :=
  ⟨fun r => remove_mem L id r, remove_idem L id, remove_of_absent L id⟩

/-- Witness for `remove_activation_idempotent` on a two-row ledger. -/
theorem remove_activation_idempotent_witness :
    ((⟨"7", "+447000", none⟩ : ActivationRecord) ∈
        ([⟨"42", "+15550001", none⟩, ⟨"7", "+447000", none⟩] : Ledger) ∧
      (⟨"7", "+447000", none⟩ : ActivationRecord).activation_id ≠ "42") ∧
    remove_activation_from_json
        (remove_activation_from_json [⟨"42", "+15550001", none⟩, ⟨"7", "+447000", none⟩] "42") "42" =
      remove_activation_from_json [⟨"42", "+15550001", none⟩, ⟨"7", "+447000", none⟩] "42" ∧
    remove_activation_from_json [⟨"7", "+447000", none⟩] "42" = [⟨"7", "+447000", none⟩] :=
  ⟨((remove_activation_idempotent [⟨"42", "+15550001", none⟩, ⟨"7", "+447000", none⟩] "42").1
      ⟨"7", "+447000", none⟩).mp (by decide),
   (remove_activation_idempotent [⟨"42", "+15550001", none⟩, ⟨"7", "+447000", none⟩] "42").2.1,
   (remove_activation_idempotent [⟨"7", "+447000", none⟩] "42").2.2 (by decide)⟩

/-! ## Provider responses and the `phone_number_send` loop
(src/telegram_regger.py) -/

/-- The `error` entry of a provider response dictionary.  The key may be
absent altogether (then `num_data['error']` raises `KeyError`), present
with a falsy value, or present with a truthy message. -/
inductive ErrField
  | absent
  | presentFalsy
  | presentTruthy (msg : String)
deriving DecidableEq, Repr

/-- A response of `SmsApi.verification_number` after its key
normalisation. -/
structure NumData where
  phoneNumber : Option String
  activationId : Option String
  activationCost : Option Int
  error : ErrField
deriving DecidableEq, Repr

/-- Python falsiness of an optional string (`if not phone_number`): `None`
and the empty string are falsy. -/
def pyFalsy : Option String → Bool
  | none => true
  | some s => s == ""

/-- Python `str.startswith`, on the character lists of the strings. -/
def isPre : List Char → List Char → Bool
  | [], _ => true
  | _ :: _, [] => false
  | a :: as, b :: bs => a == b && isPre as bs

def startswith (s p : String) : Bool := isPre p.data s.data

/-- Observable effects of the registration flow: a rental request to the
provider, a provider `setStatus` call, ledger writes, and handing a phone
number to the Telegram app (`telegram.input_phone_number`). -/
inductive Ev
  | requestNumber
  | setStatusEv (activation_id : String) (status : Nat)
  | removeLedgerEv (activation_id : String)
  | saveLedgerEv (activation_id phone_number : String)
  | inputPhoneEv (phone_number : String)
deriving DecidableEq, Repr

/-- `activation_admin` (telegram_regger.py lines 106-141), restricted to
its provider/ledger effects: cancel at the provider (`setStatus 8`) and
drop the row from the ledger, but only when `can_set_status_8` vouches for
the id; otherwise leave both alone.  The statistics-JSON writes and the
exception logging are not modelled. -/
def activation_admin (L : Ledger) (now : Int) (activation_id : Option String) :
    Ledger × List Ev :=
  if can_set_status_8 L now (pyStr activation_id) 120 then
    (remove_activation_from_json L (pyStr activation_id),
     [.setStatusEv (pyStr activation_id) 8, .removeLedgerEv (pyStr activation_id)])
  else (L, [])

/-- How one run of the inner `while new_number` loop ends. -/
inductive InnerRes
  | success (activationId : Option String) (phone : String) (price : Option Int)
  | hardFail
  | keyError
  | outOfFuel
deriving DecidableEq, Repr

/-- State after a run of the inner loop: result, next index into the
response stream, ledger, and trace of effects. -/
structure LoopOut where
  res : InnerRes
  next : Nat
  ledger : Ledger
  trace : List Ev
deriving DecidableEq, Repr

/-- The inner `while new_number` loop of `phone_number_send`.  `resps k` is
the response the k-th call to `verification_number` yields.  Each iteration
requests a number; a falsy `phoneNumber` is dispatched on the `error`
entry (truthy → `continue`, falsy → `return False`, missing key →
`KeyError`); a number with the wrong dial prefix for `"United Kingdom"` or
`"USA"` goes through `activation_admin` and the loop `continue`s;
otherwise the loop exits with the number.  `fuel` bounds the number of
iterations the interpreter may unfold. -/
def innerLoop (country : String) (resps : Nat → NumData) (now : Int) :
    Nat → Nat → Ledger → LoopOut
  | 0, k, L => ⟨.outOfFuel, k, L, []⟩
  | fuel + 1, k, L =>
    let d := resps k
    if pyFalsy d.phoneNumber then
      match d.error with
      | .presentTruthy _ =>
        let r := innerLoop country resps now fuel (k + 1) L
        ⟨r.res, r.next, r.ledger, .requestNumber :: r.trace⟩
      | .presentFalsy => ⟨.hardFail, k + 1, L, [.requestNumber]⟩
      | .absent => ⟨.keyError, k + 1, L, [.requestNumber]⟩
    else
      let p := d.phoneNumber.getD ""
      if country == "United Kingdom" && !startswith p "+44" then
        let a := activation_admin L now d.activationId
        let r := innerLoop country resps now fuel (k + 1) a.1
        ⟨r.res, r.next, r.ledger, .requestNumber :: (a.2 ++ r.trace)⟩
      else if country == "USA" && !startswith p "+1" then
        let a := activation_admin L now d.activationId
        let r := innerLoop country resps now fuel (k + 1) a.1
        ⟨r.res, r.next, r.ledger, .requestNumber :: (a.2 ++ r.trace)⟩
      else
        ⟨.success d.activationId p d.activationCost, k + 1, L, [.requestNumber]⟩

/-- Result of `phone_number_send`. -/
inductive SendRes
  | ok (activationId : Option String) (phone : String) (price : Option Int)
  | failed
  | outOfFuel
deriving DecidableEq, Repr

structure SendOut where
  res : SendRes
  ledger : Ledger
  trace : List Ev
deriving DecidableEq, Repr

/-- The outer `while attempt < 5` loop of `phone_number_send`, with `n`
attempts left.  A successful inner run hands the number to the Telegram
app and records the activation; `return False` propagates; a `KeyError`
is caught by the `except` clause, which gives up once the attempt counter
reaches 5 and otherwise retries. -/
def outerLoop (country : String) (resps : Nat → NumData) (now : Int) (fuel : Nat) :
    Nat → Nat → Ledger → SendOut
  | 0, _, L => ⟨.failed, L, []⟩
  | n + 1, k, L =>
    let r := innerLoop country resps now fuel k L
    match r.res with
    | .success id p price =>
      ⟨.ok id p price, save_activation_to_json r.ledger (pyStr id) p now,
       r.trace ++ [.inputPhoneEv p, .saveLedgerEv (pyStr id) p]⟩
    | .hardFail => ⟨.failed, r.ledger, r.trace⟩
    | .outOfFuel => ⟨.outOfFuel, r.ledger, r.trace⟩
    | .keyError =>
      let s := outerLoop country resps now fuel n r.next r.ledger
      ⟨s.res, s.ledger, r.trace ++ s.trace⟩

/-- `phone_number_send` (telegram_regger.py lines 245-304): the outer loop
starts with the full budget of 5 attempts and the first response of the
stream. -/
def phone_number_send (country : String) (resps : Nat → NumData) (now : Int)
    (fuel : Nat) (L : Ledger) : SendOut :=
  outerLoop country resps now fuel 5 0 L

/-! ## Country validation (C1, C10, C5) -/

theorem activation_admin_no_input (L : Ledger) (now : Int) (id : Option String)
    (pn : String) : Ev.inputPhoneEv pn ∉ (activation_admin L now id).2 := by
  unfold activation_admin
  split <;> simp

theorem innerLoop_no_input (country : String) (resps : Nat → NumData) (now : Int) :
    ∀ fuel k L pn, Ev.inputPhoneEv pn ∉ (innerLoop country resps now fuel k L).trace := by
  intro fuel
  induction fuel with
  | zero => intro k L pn; simp [innerLoop]
  | succ fuel ih =>
    intro k L pn
    simp only [innerLoop]
    split
    · split
      · simpa using ih (k + 1) L pn
      · simp
      · simp
    · split
      · simp only [List.mem_cons, List.mem_append]
        push_neg
        exact ⟨by simp, activation_admin_no_input _ _ _ _, ih _ _ _⟩
      · split
        · simp only [List.mem_cons, List.mem_append]
          push_neg
          exact ⟨by simp, activation_admin_no_input _ _ _ _, ih _ _ _⟩
        · simp

theorem innerLoop_success_prefix (country : String) (resps : Nat → NumData) (now : Int) :
    ∀ fuel k L id p price,
      (innerLoop country resps now fuel k L).res = .success id p price →
      (country = "USA" → startswith p "+1" = true) ∧
      (country = "United Kingdom" → startswith p "+44" = true) := by
  intro fuel
  induction fuel with
  | zero => intro k L id p price h; simp [innerLoop] at h
  | succ fuel ih =>
    intro k L id p price h
    simp only [innerLoop] at h
    split at h
    · split at h
      · exact ih _ _ _ _ _ h
      · simp at h
      · simp at h
    · rename_i hfal
      split at h
      · exact ih _ _ _ _ _ h
      · split at h
        · exact ih _ _ _ _ _ h
        · rename_i hUK hUSA
          simp only at h
          injection h with h1 h2 h3
          subst h2
          constructor
          · intro hc
            subst hc
            simpa using hUSA
          · intro hc
            subst hc
            simpa using hUK

theorem outerLoop_input_prefix (country : String) (resps : Nat → NumData) (now : Int)
    (fuel : Nat) :
    ∀ n k L pn, Ev.inputPhoneEv pn ∈ (outerLoop country resps now fuel n k L).trace →
      (country = "USA" → startswith pn "+1" = true) ∧
      (country = "United Kingdom" → startswith pn "+44" = true) := by
  intro n
  induction n with
  | zero => intro k L pn h; simp [outerLoop] at h
  | succ n ih =>
    intro k L pn h
    simp only [outerLoop] at h
    split at h
    · rename_i id p price heq
      simp only [List.mem_append, List.mem_cons] at h
      rcases h with h | h
      · exact absurd h (innerLoop_no_input country resps now fuel k L pn)
      · rcases h with h | h
        · injection h with h1
          subst h1
          exact innerLoop_success_prefix country resps now fuel k L id pn price heq
        · simp at h
    · rename_i heq
      exact absurd h (innerLoop_no_input country resps now fuel k L pn)
    · rename_i heq
      exact absurd h (innerLoop_no_input country resps now fuel k L pn)
    · rename_i heq
      simp only [List.mem_append] at h
      rcases h with h | h
      · exact absurd h (innerLoop_no_input country resps now fuel k L pn)
      · exact ih _ _ pn h

/-- C1: for a requested country `"USA"` (resp. `"United Kingdom"`), every
phone number `phone_number_send` hands to `telegram.input_phone_number`
starts with `"+1"` (resp. `"+44"`): a number with the wrong dial prefix is
never delivered — the loop discards it and requests a fresh number. -/
theorem phone_number_send_country_check (country : String) (resps : Nat → NumData)
    (now : Int) (fuel : Nat) (L : Ledger) (pn : String)
    (h : Ev.inputPhoneEv pn ∈ (phone_number_send country resps now fuel L).trace) :
    (country = "USA" → startswith pn "+1" = true) ∧
    (country = "United Kingdom" → startswith pn "+44" = true) :=
  outerLoop_input_prefix country resps now fuel 5 0 L pn h

/-- Witness for `phone_number_send_country_check`: in a `"USA"` run that
delivers `"+15550001"`, the delivered number indeed starts with `"+1"`. -/
theorem phone_number_send_country_check_witness :
    Ev.inputPhoneEv "+15550001" ∈
      (phone_number_send "USA" (fun _ => ⟨some "+15550001", some "A", some 1, .absent⟩)
        0 1 []).trace ∧
    startswith "+15550001" "+1" = true :=
  ⟨by decide,
   (phone_number_send_country_check "USA"
      (fun _ => ⟨some "+15550001", some "A", some 1, .absent⟩) 0 1 [] "+15550001"
      (by decide)).1 rfl⟩

/-- C10: the dial-prefix check is applied only for `"USA"` and
`"United Kingdom"`.  For any other requested country, the first response
carrying a (non-empty) phone number is accepted as is: the number is
delivered to the Telegram app with no check against the country. -/
theorem phone_number_send_other_country (country : String) (resps : Nat → NumData)
    (now : Int) (L : Ledger) (pn : String) (fuel : Nat)
    (h1 : country ≠ "USA") (h2 : country ≠ "United Kingdom")
    (hp : (resps 0).phoneNumber = some pn) (hne : pn ≠ "") :
    phone_number_send country resps now (fuel + 1) L =
      ⟨.ok (resps 0).activationId pn (resps 0).activationCost,
       save_activation_to_json L (pyStr (resps 0).activationId) pn now,
       [.requestNumber, .inputPhoneEv pn,
        .saveLedgerEv (pyStr (resps 0).activationId) pn]⟩ := by
  have hb1 : (country == "USA") = false := by simpa using h1
  have hb2 : (country == "United Kingdom") = false := by simpa using h2
  have hfal : pyFalsy (some pn) = false := by
    simpa [pyFalsy] using hne
  have hinner : innerLoop country resps now (fuel + 1) 0 L =
      ⟨.success (resps 0).activationId pn (resps 0).activationCost, 1, L,
       [.requestNumber]⟩ := by
    simp [innerLoop, hfal, hb1, hb2, hp]
  simp [phone_number_send, outerLoop, hinner]

/-- Witness for `phone_number_send_other_country`: a `"Canada"` run accepts
a `"+33..."` number unquestioned. -/
theorem phone_number_send_other_country_witness :
    phone_number_send "Canada" (fun _ => ⟨some "+33123", some "C3", some 2, .absent⟩)
        0 1 [] =
      ⟨.ok (some "C3") "+33123" (some 2),
       [⟨"C3", "+33123", some (some 0)⟩],
       [.requestNumber, .inputPhoneEv "+33123", .saveLedgerEv "C3" "+33123"]⟩ :=
  phone_number_send_other_country "Canada"
    (fun _ => ⟨some "+33123", some "C3", some 2, .absent⟩) 0 [] "+33123" 0
    (by decide) (by decide) rfl (by decide)

/-! ## Retry bound on provider errors (C4) -/

/-- A provider response with no number but an explicit (truthy) error
payload: "no numbers available". -/
def noNumbersResp : NumData := ⟨none, some "A1", none, .presentTruthy "NO_NUMBERS"⟩

theorem innerLoop_noNumbers (country : String) (now : Int) :
    ∀ fuel k L, innerLoop country (fun _ => noNumbersResp) now fuel k L =
      ⟨.outOfFuel, k + fuel, L, List.replicate fuel .requestNumber⟩ := by
  intro fuel
  induction fuel with
  | zero => intro k L; simp [innerLoop]
  | succ fuel ih =>
    intro k L
    simp only [innerLoop]
    simp only [show noNumbersResp.phoneNumber = none from rfl,
      show noNumbersResp.error = ErrField.presentTruthy "NO_NUMBERS" from rfl, pyFalsy]
    rw [if_pos trivial]
    rw [ih (k + 1) L]
    simp only [LoopOut.mk.injEq, List.replicate_succ]
    refine ⟨trivial, by omega, trivial, trivial⟩

/-- C4 evidence: when the provider answers "no numbers available" forever,
the inner `while new_number` loop of `phone_number_send` keeps re-requesting
without ever incrementing the `attempt` counter: for every iteration budget
`fuel`, the run has issued `fuel` rental requests and is still inside the
loop (result `outOfFuel`), never reaching a failure result.  This
contradicts the 5-attempt bound: the `continue` of the error branch
restarts the inner loop, not the outer attempt loop. -/
theorem phone_number_send_noNumbers_unbounded (country : String) (now : Int)
    (L : Ledger) (fuel : Nat) :
    phone_number_send country (fun _ => noNumbersResp) now fuel L =
      ⟨.outOfFuel, L, List.replicate fuel .requestNumber⟩ ∧
    (phone_number_send country (fun _ => noNumbersResp) now fuel L).trace.length = fuel := by
  have h : phone_number_send country (fun _ => noNumbersResp) now fuel L =
      ⟨.outOfFuel, L, List.replicate fuel .requestNumber⟩ := by
    simp [phone_number_send, outerLoop, innerLoop_noNumbers country now fuel 0 L]
  exact ⟨h, by rw [h]; simp⟩

/-! ## Soft vs hard failure on a missing phone number (C7) -/

/-- A provider response carrying neither a phone number nor an `error`
entry at all. -/
def noPhoneNoErrorResp : NumData := ⟨none, some "B1", none, .absent⟩

/-- C7 counterexample: on a response with no phone number and no `error`
key, `phone_number_send` does NOT return failure after the single rental
request: `num_data['error']` raises `KeyError`, the `except` clause of the
outer loop catches it, and the rental request is re-issued — five requests
in total before the failure is returned. -/
theorem noPhone_noError_retries :
    (phone_number_send "USA" (fun _ => noPhoneNoErrorResp) 0 1 []).res = .failed ∧
    (phone_number_send "USA" (fun _ => noPhoneNoErrorResp) 0 1 []).trace =
      List.replicate 5 .requestNumber ∧
    List.replicate 5 Ev.requestNumber ≠ [Ev.requestNumber] := by decide

theorem innerLoop_absent_step (country : String) (resps : Nat → NumData) (now : Int)
    (fuel k : Nat) (L : Ledger)
    (hp : pyFalsy (resps k).phoneNumber = true)
    (he : (resps k).error = .absent) :
    innerLoop country resps now (fuel + 1) k L = ⟨.keyError, k + 1, L, [.requestNumber]⟩ := by
  simp only [innerLoop]
  rw [if_pos hp, he]

theorem outerLoop_absent (country : String) (resps : Nat → NumData) (now : Int)
    (fuel : Nat)
    (h : ∀ j, pyFalsy (resps j).phoneNumber = true ∧ (resps j).error = .absent) :
    ∀ n k L, outerLoop country resps now (fuel + 1) n k L =
      ⟨.failed, L, List.replicate n .requestNumber⟩ := by
  intro n
  induction n with
  | zero => intro k L; simp [outerLoop]
  | succ n ih =>
    intro k L
    simp only [outerLoop,
      innerLoop_absent_step country resps now fuel k L (h k).1 (h k).2]
    simp [ih (k + 1) L, List.replicate_succ]

/-- C7, amended: a response lacking a phone number is a retryable soft
failure (inner-loop `continue`) exactly when the `error` entry is present
and truthy; when the entry is present but falsy the attempt returns
failure at once, with no further rental request; when the entry is absent,
`num_data['error']` raises `KeyError`, which the outer attempt loop
catches and retries — up to the 5-attempt bound (five rental requests for
a stream of such responses) — before failing. -/
theorem missing_phone_dispatch (country : String) (resps : Nat → NumData) (now : Int)
    (fuel k : Nat) (L : Ledger)
    (hp : pyFalsy (resps k).phoneNumber = true) :
    (∀ m, (resps k).error = .presentTruthy m →
      innerLoop country resps now (fuel + 1) k L =
        ⟨(innerLoop country resps now fuel (k + 1) L).res,
         (innerLoop country resps now fuel (k + 1) L).next,
         (innerLoop country resps now fuel (k + 1) L).ledger,
         .requestNumber :: (innerLoop country resps now fuel (k + 1) L).trace⟩) ∧
    ((resps k).error = .presentFalsy →
      innerLoop country resps now (fuel + 1) k L =
        ⟨.hardFail, k + 1, L, [.requestNumber]⟩) ∧
    ((resps k).error = .absent →
      innerLoop country resps now (fuel + 1) k L =
        ⟨.keyError, k + 1, L, [.requestNumber]⟩) ∧
    (k = 0 → (resps 0).error = .presentFalsy →
      phone_number_send country resps now (fuel + 1) L =
        ⟨.failed, L, [.requestNumber]⟩) ∧
    ((∀ j, pyFalsy (resps j).phoneNumber = true ∧ (resps j).error = .absent) →
      phone_number_send country resps now (fuel + 1) L =
        ⟨.failed, L, List.replicate 5 .requestNumber⟩) := by
  refine ⟨?_, ?_, ?_, ?_, ?_⟩
  · intro m he
    simp only [innerLoop]
    rw [if_pos hp, he]
  · intro he
    simp only [innerLoop]
    rw [if_pos hp, he]
  · intro he
    exact innerLoop_absent_step country resps now fuel k L hp he
  · intro hk he
    subst hk
    have hin : innerLoop country resps now (fuel + 1) 0 L =
        ⟨.hardFail, 1, L, [.requestNumber]⟩ := by
      simp only [innerLoop]
      rw [if_pos hp, he]
    simp [phone_number_send, outerLoop, hin]
  · intro hall
    exact outerLoop_absent country resps now fuel hall 5 0 L

/-- Witness for `missing_phone_dispatch`, at concrete single-response
streams of each of the three `error` shapes. -/
theorem missing_phone_dispatch_witness :
    innerLoop "USA" (fun _ => noNumbersResp) 0 1 0 [] =
      ⟨.outOfFuel, 1, [], [.requestNumber]⟩ ∧
    innerLoop "USA" (fun _ => (⟨none, some "F1", none, .presentFalsy⟩ : NumData)) 0 1 0 [] =
      ⟨.hardFail, 1, [], [.requestNumber]⟩ ∧
    innerLoop "USA" (fun _ => noPhoneNoErrorResp) 0 1 0 [] =
      ⟨.keyError, 1, [], [.requestNumber]⟩ ∧
    phone_number_send "USA" (fun _ => (⟨none, some "F1", none, .presentFalsy⟩ : NumData)) 0 1 [] =
      ⟨.failed, [], [.requestNumber]⟩ ∧
    phone_number_send "USA" (fun _ => noPhoneNoErrorResp) 0 1 [] =
      ⟨.failed, [], List.replicate 5 .requestNumber⟩ :=
  ⟨(missing_phone_dispatch "USA" (fun _ => noNumbersResp) 0 0 0 [] rfl).1
      "NO_NUMBERS" rfl,
   (missing_phone_dispatch "USA" (fun _ => ⟨none, some "F1", none, .presentFalsy⟩)
      0 0 0 [] rfl).2.1 rfl,
   (missing_phone_dispatch "USA" (fun _ => noPhoneNoErrorResp) 0 0 0 [] rfl).2.2.1 rfl,
   (missing_phone_dispatch "USA" (fun _ => ⟨none, some "F1", none, .presentFalsy⟩)
      0 0 0 [] rfl).2.2.2.1 rfl rfl,
   (missing_phone_dispatch "USA" (fun _ => noPhoneNoErrorResp) 0 0 0 [] rfl).2.2.2.2
      (fun _ => ⟨rfl, rfl⟩)⟩

/-! ## Release of a mismatched rental (C5) -/

/-- A stream whose first rental is a UK number (wrong for a `"USA"` run)
and whose second rental is a US number. -/
def mismatchResps : Nat → NumData := fun k =>
  if k = 0 then ⟨some "+447000111", some "A1", some 1, .absent⟩
  else ⟨some "+15550002", some "B2", some 2, .absent⟩

/-- C5 counterexample: in a `"USA"` run starting from an empty ledger, the
wrongly-prefixed first rental (activation `"A1"`) is NOT released: no
`setStatus(…, 8)` call is issued for it, because `activation_admin` guards
the cancel with `can_set_status_8` and the activation was never saved to
the ledger (saving happens only after a number is accepted).  The loop
still retries and delivers the second rental. -/
theorem mismatch_no_cancel :
    (phone_number_send "USA" mismatchResps 0 2 []).res =
      .ok (some "B2") "+15550002" (some 2) ∧
    Ev.setStatusEv "A1" 8 ∉ (phone_number_send "USA" mismatchResps 0 2 []).trace ∧
    (phone_number_send "USA" mismatchResps 0 2 []).trace =
      [.requestNumber, .requestNumber, .inputPhoneEv "+15550002",
       .saveLedgerEv "B2" "+15550002"] := by decide

/-- C5, amended: on a country mismatch the loop hands the activation to
`activation_admin` before looping back for a fresh number, but
`activation_admin` issues the provider-side cancel (`setStatus 8`, plus
ledger removal) only when `can_set_status_8` vouches for the id; for an id
the ledger does not know — the normal case, since a rental is saved only
after acceptance — it does nothing, so no cancel is issued for the
mismatched rental. -/
theorem mismatch_routes_through_admin (country : String) (resps : Nat → NumData)
    (now : Int) (fuel k : Nat) (L : Ledger) (p : String)
    (hp : (resps k).phoneNumber = some p) (hne : p ≠ "")
    (hmis : (country = "USA" ∧ startswith p "+1" = false) ∨
            (country = "United Kingdom" ∧ startswith p "+44" = false)) :
    innerLoop country resps now (fuel + 1) k L =
      ⟨(innerLoop country resps now fuel (k + 1)
          (activation_admin L now (resps k).activationId).1).res,
       (innerLoop country resps now fuel (k + 1)
          (activation_admin L now (resps k).activationId).1).next,
       (innerLoop country resps now fuel (k + 1)
          (activation_admin L now (resps k).activationId).1).ledger,
       .requestNumber :: ((activation_admin L now (resps k).activationId).2 ++
         (innerLoop country resps now fuel (k + 1)
            (activation_admin L now (resps k).activationId).1).trace)⟩ ∧
    (can_set_status_8 L now (pyStr (resps k).activationId) 120 = true →
      activation_admin L now (resps k).activationId =
        (remove_activation_from_json L (pyStr (resps k).activationId),
         [.setStatusEv (pyStr (resps k).activationId) 8,
          .removeLedgerEv (pyStr (resps k).activationId)])) ∧
    (can_set_status_8 L now (pyStr (resps k).activationId) 120 = false →
      activation_admin L now (resps k).activationId = (L, [])) := by
  have hfal : pyFalsy (some p) = false := by simpa [pyFalsy] using hne
  refine ⟨?_, ?_, ?_⟩
  · simp only [innerLoop, hp, hfal]
    rw [if_neg (by simp)]
    rcases hmis with ⟨hc, hpre⟩ | ⟨hc, hpre⟩
    · subst hc
      rw [if_neg (by simp), if_pos (by simp [hpre])]
    · subst hc
      rw [if_pos (by simp [hpre])]
  · intro h
    simp [activation_admin, h]
  · intro h
    simp [activation_admin, h]

/-- Witness for `mismatch_routes_through_admin` at the concrete mismatch
stream, both for an empty ledger (no cancel) and for a ledger already
holding an old record for `"A1"` (cancel emitted). -/
theorem mismatch_routes_through_admin_witness :
    innerLoop "USA" mismatchResps 0 1 0 [] =
      ⟨(innerLoop "USA" mismatchResps 0 0 1 (activation_admin [] 0 (some "A1")).1).res,
       (innerLoop "USA" mismatchResps 0 0 1 (activation_admin [] 0 (some "A1")).1).next,
       (innerLoop "USA" mismatchResps 0 0 1 (activation_admin [] 0 (some "A1")).1).ledger,
       .requestNumber :: ((activation_admin [] 0 (some "A1")).2 ++
         (innerLoop "USA" mismatchResps 0 0 1 (activation_admin [] 0 (some "A1")).1).trace)⟩ ∧
    activation_admin ([] : Ledger) 0 (some "A1") = ([], []) ∧
    activation_admin [⟨"A1", "+447000111", some (some 0)⟩] 200 (some "A1") =
      (remove_activation_from_json [⟨"A1", "+447000111", some (some 0)⟩] "A1",
       [.setStatusEv "A1" 8, .removeLedgerEv "A1"]) :=
  ⟨(mismatch_routes_through_admin "USA" mismatchResps 0 0 0 [] "+447000111"
      rfl (by decide) (Or.inl ⟨rfl, by decide⟩)).1,
   (mismatch_routes_through_admin "USA" mismatchResps 0 0 0 [] "+447000111"
      rfl (by decide) (Or.inl ⟨rfl, by decide⟩)).2.2 (by decide),
   (mismatch_routes_through_admin "USA" mismatchResps 200 0 0
      [⟨"A1", "+447000111", some (some 0)⟩] "+447000111"
      rfl (by decide) (Or.inl ⟨rfl, by decide⟩)).2.1 (by decide)⟩

/-! ## SMS-code polling timeout (C6) -/

/-- The polling loop of `SmsApi.check_verif_status`.  `polls n` is the code
(if any) the n-th `getStatusV2` round yields after normalisation (`none`
covers a pending status, a polling error, and a falsy code).  When a code
arrives, the activation is closed with `setStatus 6` and the code
returned; when the deadline is reached (`fuel = 0`) the activation is
cancelled best-effort with `setStatus 8` and the empty string returned. -/
def cvs_loop (polls : Nat → Option String) (id : String) : Nat → Nat → String × List Ev
  | 0, _ => ("", [.setStatusEv id 8])
  | fuel + 1, k =>
    match polls k with
    | some code => (code, [.setStatusEv id 6])
    | none => cvs_loop polls id fuel (k + 1)

/-- `check_verif_status` (sms_api.py lines 293-381): the loop runs while
`time < deadline`; with one poll round every `poll_interval` seconds this
is `⌈timeout / poll_interval⌉` rounds — 60 for the default 300 s timeout
and 5 s interval. -/
def check_verif_status (polls : Nat → Option String) (id : String)
    (timeout poll_interval : Nat) : String × List Ev :=
  cvs_loop polls id ((timeout + poll_interval - 1) / poll_interval) 0

/-- Outcome of the SMS-code wait inside `register_telegram_account`. -/
structure AwaitOut where
  success : Bool
  code : String
  ledger : Ledger
  trace : List Ev
deriving DecidableEq, Repr

/-- The SMS-code wait of `register_telegram_account` (telegram_regger.py
lines 420-425): poll via `check_verif_status`; an empty code runs
`activation_admin` and fails the attempt.  `now` is the clock at the
deadline. -/
def await_sms_code (polls : Nat → Option String) (id : String) (L : Ledger)
    (now : Int) (timeout poll_interval : Nat) : AwaitOut :=
  let r := check_verif_status polls id timeout poll_interval
  if r.1 = "" then
    let a := activation_admin L now (some id)
    ⟨false, r.1, a.1, r.2 ++ a.2⟩
  else ⟨true, r.1, L, r.2⟩

theorem cvs_loop_all_none (polls : Nat → Option String) (id : String)
    (hall : ∀ k, polls k = none) :
    ∀ fuel k, cvs_loop polls id fuel k = ("", [.setStatusEv id 8]) := by
  intro fuel
  induction fuel with
  | zero => intro k; rfl
  | succ fuel ih =>
    intro k
    simp only [cvs_loop, hall k]
    exact ih (k + 1)

/-- C6: when every poll round within the 300 s deadline comes back without
a code and the ledger holds a record for the activation old enough by the
deadline (as it always is in the registration flow, where the rental was
saved before polling began), the flow cancels the activation at the
provider only while `can_set_status_8` holds (and it does hold), removes
the activation from the ledger — the ledger no longer contains the id —
and the attempt ends in failure with an empty code. -/
theorem timeout_cancel_and_remove (polls : Nat → Option String) (L : Ledger)
    (id pn : String) (t now : Int)
    (hall : ∀ k, polls k = none)
    (hfind : L.find? (fun r => r.activation_id == id) = some ⟨id, pn, some (some t)⟩)
    (hage : now - t ≥ 120) :
    can_set_status_8 L now id 120 = true ∧
    Ev.setStatusEv id 8 ∈ (await_sms_code polls id L now 300 5).trace ∧
    (await_sms_code polls id L now 300 5).ledger.all
      (fun r => r.activation_id != id) = true ∧
    (await_sms_code polls id L now 300 5).success = false ∧
    (await_sms_code polls id L now 300 5).code = "" := by
  have helig : can_set_status_8 L now id 120 = true := by
    rw [can_set_status_8_find, hfind]
    simp only [cancelEval]
    simpa using hage
  have hcvs : check_verif_status polls id 300 5 = ("", [.setStatusEv id 8]) :=
    cvs_loop_all_none polls id hall _ 0
  have hadmin : activation_admin L now (some id) =
      (remove_activation_from_json L id,
       [.setStatusEv id 8, .removeLedgerEv id]) := by
    simp [activation_admin, pyStr, helig]
  have hawait : await_sms_code polls id L now 300 5 =
      ⟨false, "", remove_activation_from_json L id,
       [.setStatusEv id 8] ++ [.setStatusEv id 8, .removeLedgerEv id]⟩ := by
    simp [await_sms_code, hcvs, hadmin]
  refine ⟨helig, ?_, ?_, ?_, ?_⟩
  · rw [hawait]; simp
  · rw [hawait]
    simp only [List.all_eq_true]
    intro r hr
    simpa [bne_iff_ne] using ((remove_mem L id r).mp hr).2
  · rw [hawait]
  · rw [hawait]

/-- Witness for `timeout_cancel_and_remove`: activation `"42"` recorded at
time 0, deadline at 300 s, every poll pending. -/
theorem timeout_cancel_and_remove_witness :
    can_set_status_8 [⟨"42", "+15550001", some (some 0)⟩] 300 "42" 120 = true ∧
    Ev.setStatusEv "42" 8 ∈
      (await_sms_code (fun _ => none) "42" [⟨"42", "+15550001", some (some 0)⟩]
        300 300 5).trace ∧
    (await_sms_code (fun _ => none) "42" [⟨"42", "+15550001", some (some 0)⟩]
        300 300 5).ledger.all (fun r => r.activation_id != "42") = true ∧
    (await_sms_code (fun _ => none) "42" [⟨"42", "+15550001", some (some 0)⟩]
        300 300 5).success = false ∧
    (await_sms_code (fun _ => none) "42" [⟨"42", "+15550001", some (some 0)⟩]
        300 300 5).code = "" :=
  timeout_cancel_and_remove (fun _ => none) [⟨"42", "+15550001", some (some 0)⟩]
    "42" "+15550001" 0 300 (fun _ => rfl) (by decide) (by decide)

/-! ## IMEI generation (src/auto_reger/adb.py, C8) -/

/-- Double a digit and subtract 9 when the result reaches 10, as in
`int(d) * 2 if int(d) * 2 < 10 else int(d) * 2 - 9`. -/
def dbl (d : Nat) : Nat := if d * 2 < 10 then d * 2 else d * 2 - 9

/-- The elements at even 0-based positions of a list — Python `l[0::2]`
(and `l[1::2]` via `stride2 (l.drop 1)`). -/
def stride2 : List Nat → List Nat
  | [] => []
  | [a] => [a]
  | a :: _ :: rest => a :: stride2 rest

theorem stride2_cons (b : Nat) (rest : List Nat) :
    stride2 (b :: rest) = b :: stride2 (rest.drop 1) := by
  cases rest <;> rfl

/-- `generate_samsung_imei` as a function of the 12 random digits drawn:
`tac = "35" + 6 digits`, `serial = 6 digits`, `temp = tac + serial`
(14 digits); `sum_odd` sums `temp[0::2]`, `sum_even` sums the
doubled-and-reduced `temp[1::2]`; the check digit
`(10 - (sum_odd + sum_even) % 10) % 10` is appended. -/
def generate_samsung_imei_digits (r : List Nat) : List Nat :=
  let tac := [3, 5] ++ r.take 6
  let serial := r.drop 6
  let temp := tac ++ serial
  let sum_odd := (stride2 temp).sum
  let sum_even := ((stride2 (temp.drop 1)).map dbl).sum
  let check_digit := (10 - (sum_odd + sum_even) % 10) % 10
  temp ++ [check_digit]

def digitChar (d : Nat) : Char := Char.ofNat (48 + d)

/-- The string the Python function returns. -/
def generate_samsung_imei (r : List Nat) : String :=
  ⟨(generate_samsung_imei_digits r).map digitChar⟩

/-- The Luhn-style sum exactly as the specification words it: over the
digits, a digit at an even 0-based index counts as itself, a digit at an
odd index counts doubled (minus 9 when the double reaches 10). -/
def specLuhnAux : Nat → List Nat → Nat
  | _, [] => 0
  | i, d :: rest => (if i % 2 = 0 then d else dbl d) + specLuhnAux (i + 1) rest

def specLuhn (l : List Nat) : Nat := specLuhnAux 0 l

theorem specLuhnAux_shift (l : List Nat) : ∀ i, specLuhnAux (i + 2) l = specLuhnAux i l := by
  induction l with
  | nil => intro i; rfl
  | cons d rest ih =>
    intro i
    simp only [specLuhnAux, Nat.add_mod_right]
    rw [show i + 2 + 1 = i + 1 + 2 by omega, ih (i + 1)]

/-- The code's two stride-2 sums compute the specification's index-parity
Luhn sum. -/
theorem luhn_bridge : ∀ l : List Nat,
    specLuhnAux 0 l = (stride2 l).sum + ((stride2 (l.drop 1)).map dbl).sum := by
  intro l
  induction l using stride2.induct with
  | case1 => rfl
  | case2 a => simp [specLuhnAux, stride2]
  | case3 a b rest ih =>
    have h1 : specLuhnAux 0 (a :: b :: rest) = a + (dbl b + specLuhnAux 0 rest) := by
      simp only [specLuhnAux]
      rw [show (0 : Nat) + 1 + 1 = 0 + 2 by omega, specLuhnAux_shift rest 0]
      norm_num
    rw [h1, ih]
    simp only [stride2, List.drop_succ_cons, List.drop_zero, stride2_cons b rest,
      List.sum_cons, List.map_cons]
    omega

/-- C8: every generated IMEI is a string of exactly 15 decimal digits, it
starts with `"35"`, and its 15th digit is the Luhn-style check digit
recomputed from the first 14: with `S` the parity-weighted sum
(`specLuhn`) of the first 14 digits, the last digit is
`(10 - S % 10) % 10`. -/
theorem generate_samsung_imei_spec (r : List Nat) (hlen : r.length = 12)
    (hdig : ∀ d ∈ r, d < 10) :
    (generate_samsung_imei r).data.length = 15 ∧
    (generate_samsung_imei r).data.all Char.isDigit = true ∧
    startswith (generate_samsung_imei r) "35" = true ∧
    (generate_samsung_imei_digits r).drop 14 =
      [(10 - specLuhn ((generate_samsung_imei_digits r).take 14) % 10) % 10] := by
  have htemp : [3, 5] ++ r.take 6 ++ r.drop 6 = [3, 5] ++ r := by
    rw [List.append_assoc, List.take_append_drop]
  have hd : generate_samsung_imei_digits r =
      ([3, 5] ++ r) ++
        [(10 - specLuhn ([3, 5] ++ r) % 10) % 10] := by
    simp only [generate_samsung_imei_digits, htemp]
    rw [specLuhn, luhn_bridge ([3, 5] ++ r)]
  have hlen2 : ([3, 5] ++ r).length = 14 := by simp [hlen]
  have htake : (generate_samsung_imei_digits r).take 14 = [3, 5] ++ r := by
    rw [hd, List.take_left' hlen2]
  have hdrop : (generate_samsung_imei_digits r).drop 14 =
      [(10 - specLuhn ([3, 5] ++ r) % 10) % 10] := by
    rw [hd, List.drop_left' hlen2]
  have hdigall : ∀ d ∈ generate_samsung_imei_digits r, d < 10 := by
    intro d hdm
    rw [hd] at hdm
    simp only [List.append_assoc, List.mem_append, List.mem_cons,
      List.not_mem_nil, or_false, or_assoc] at hdm
    rcases hdm with h | h | h | h
    · omega
    · omega
    · exact hdig d h
    · subst h
      exact Nat.mod_lt _ (by omega)
  refine ⟨?_, ?_, ?_, ?_⟩
  · simp [generate_samsung_imei, hd, hlen]
  · simp only [generate_samsung_imei, List.all_eq_true, List.mem_map]
    rintro c ⟨d, hdm, rfl⟩
    have := hdigall d hdm
    interval_cases d <;> decide
  · have h35 : ∃ rest, generate_samsung_imei_digits r = 3 :: 5 :: rest :=
      ⟨r ++ [(10 - specLuhn ([3, 5] ++ r) % 10) % 10], by rw [hd]; simp⟩
    obtain ⟨rest, hrest⟩ := h35
    have h3 : ('3' == digitChar 3) = true := by decide
    have h5 : ('5' == digitChar 5) = true := by decide
    simp only [generate_samsung_imei, startswith, hrest, List.map_cons]
    show isPre ['3', '5'] (digitChar 3 :: digitChar 5 :: rest.map digitChar) = true
    simp [isPre, h3, h5]
  · rw [hdrop, htake]

/-- Witness for `generate_samsung_imei_spec` on the digit draw
`[0,1,2,3,4,5,6,7,8,9,0,1]`. -/
theorem generate_samsung_imei_spec_witness :
    (generate_samsung_imei [0, 1, 2, 3, 4, 5, 6, 7, 8, 9, 0, 1]).data.length = 15 ∧
    (generate_samsung_imei [0, 1, 2, 3, 4, 5, 6, 7, 8, 9, 0, 1]).data.all
      Char.isDigit = true ∧
    startswith (generate_samsung_imei [0, 1, 2, 3, 4, 5, 6, 7, 8, 9, 0, 1]) "35" = true ∧
    (generate_samsung_imei_digits [0, 1, 2, 3, 4, 5, 6, 7, 8, 9, 0, 1]).drop 14 =
      [(10 - specLuhn ((generate_samsung_imei_digits
          [0, 1, 2, 3, 4, 5, 6, 7, 8, 9, 0, 1]).take 14) % 10) % 10] :=
  generate_samsung_imei_spec [0, 1, 2, 3, 4, 5, 6, 7, 8, 9, 0, 1]
    (by decide) (by decide)

/-! ## Boot-time sequence (src/auto_reger/adb.py, C9) -/

/-- `generate_boottime_sequence`, with `datetime` values as integer
seconds: `new_time = now - shift minutes`, and the comprehension variable
over `range(-5, 0)` is unused — every element is
`int((new_time - now).total_seconds() * 1000)`. -/
def generate_boottime_sequence (now : Int) (shift : Int) : List Int :=
  let new_time := now - shift * 60
  (List.range 5).map (fun _minutes => (new_time - now) * 1000)

/-- C9 counterexample: with `shift = 1` minute the list is five copies of
`-60000` ms, not zeros. -/
theorem generate_boottime_sequence_not_zero :
    generate_boottime_sequence 0 1 = [-60000, -60000, -60000, -60000, -60000] ∧
    generate_boottime_sequence 0 1 ≠ [0, 0, 0, 0, 0] := by decide

/-- C9, amended: for every base time and shift, the generator returns five
identical integers, each `-(shift · 60000)` milliseconds — the offset of
the shifted anchor from `now`, repeated because the loop variable is
unused.  The list is all zeros exactly when `shift = 0`. -/
theorem generate_boottime_sequence_const (now shift : Int) :
    generate_boottime_sequence now shift = List.replicate 5 (-(shift * 60000)) := by
  simp only [generate_boottime_sequence]
  rw [List.map_const']
  simp only [List.length_range]
  congr 1
  ring
